import Mathlib

/-!
Verification of the LambdaMOO test-harness core: the server process
lifecycle manager and its protocol client, embedded from
`lib/moo_server.py` and `lib/client.py` (the `eval` classifier, the
read loop, `_send`, `authenticate`, `checkpoint`, `start`, `stop`).

Strings are modelled over `List Char`; the ASCII fragments of the
Python character classes `\s` and `\d` are used (the wire protocol of
the server under test is ASCII).
-/

set_option maxRecDepth 8000

namespace MooHarness

/-- Characters matched by the Python regex class `\s` (ASCII fragment),
also the characters removed by `str.strip()` / `str.rstrip()`. -/
def isPySpace (c : Char) : Bool :=
  c = ' ' || c = '\t' || c = '\n' || c = '\r' || c = '\x0b' || c = '\x0c'

/-- Characters matched by the class `[#\-\d]` of `EVAL_SUCCESS_PATTERN`
(moo_server.py line 59 / client.py line 14). -/
def isCallerChar (c : Char) : Bool :=
  c = '#' || c = '-' || c.isDigit

/-- Matches the regex tail `(.+)$` in MULTILINE mode: one or more
non-newline characters (greedy), followed by end of string or a
newline.  Returns the captured group.  After the maximal non-newline
run the next character, if any, is a newline, so `$` always holds
there and the greedy match needs no backtracking. -/
def matchRestOfLine : List Char → Option (List Char)
  | [] => none
  | c :: rest =>
    if c = '\n' then none
    else some ((c :: rest).takeWhile (fun d => d != '\n'))

/-- Matches the regex `\s*` (greedy, with backtracking: longest run
first) followed by the continuation `k`. -/
def matchSpacesThen (k : List Char → Option (List Char)) :
    List Char → Option (List Char)
  | [] => k []
  | c :: rest =>
    if isPySpace c then
      match matchSpacesThen k rest with
      | some r => some r
      | none => k (c :: rest)
    else k (c :: rest)

/-- Matches the regex fragment `=>\s*(.+)$`. -/
def matchArrow : List Char → Option (List Char)
  | '=' :: '>' :: rest => matchSpacesThen matchRestOfLine rest
  | _ => none

/-- Matches `EVAL_SUCCESS_PATTERN`, `^[#\-\d]+:\s*=>\s*(.+)$`, at one
line-start position, returning group 1.  Since `:` is not in the class
`[#\-\d]`, the greedy `+` is equivalent to the maximal class run. -/
def matchSuccessAt (l : List Char) : Option (List Char) :=
  if (l.takeWhile isCallerChar).isEmpty then none
  else
    match l.dropWhile isCallerChar with
    | ':' :: rest => matchSpacesThen matchArrow rest
    | _ => none

/-- Matches `EVAL_ERROR_PATTERN`, `^\*\*\s+(.+)$`, at one line-start
position, returning group 1 (`\s+` is one `\s` then `\s*`). -/
def matchErrorAt : List Char → Option (List Char)
  | '*' :: '*' :: c :: rest =>
    if isPySpace c then matchSpacesThen matchRestOfLine rest else none
  | _ => none

/-- Matches the regex fragment `line\s+\d+:` at the current position.
`\d` is not `\s` and `:` is not `\d`, so the greedy `\s+` and `\d+`
are equivalent to maximal runs. -/
def matchTracebackTail : List Char → Bool
  | 'l' :: 'i' :: 'n' :: 'e' :: c :: rest =>
    if isPySpace c then
      match rest.dropWhile isPySpace with
      | d :: ds =>
        if d.isDigit then
          match (d :: ds).dropWhile Char.isDigit with
          | ':' :: _ => true
          | _ => false
        else false
      | [] => false
    else false
  | _ => false

/-- Scans for `.*line\s+\d+:`: the tail may start at the current
position or after any number of non-newline characters. -/
def scanDotStar : List Char → Bool
  | [] => false
  | c :: rest =>
    if matchTracebackTail (c :: rest) then true
    else if c = '\n' then false
    else scanDotStar rest

/-- Matches `EVAL_TRACEBACK_PATTERN`, `^#[^:]+:.*line\s+\d+:`, at one
line-start position.  The class `[^:]` also matches newlines; since
`:` is excluded from it, the greedy `+` is the maximal run. -/
def matchTracebackAt : List Char → Bool
  | '#' :: rest =>
    if (rest.takeWhile (fun c => c != ':')).isEmpty then false
    else
      match rest.dropWhile (fun c => c != ':') with
      | ':' :: rest2 => scanDotStar rest2
      | _ => false
  | _ => false

/-- Python `re.search` with `re.MULTILINE` for a pattern anchored by a
leading `^`: tries the matcher at every line start (offset 0 and each
position following a newline), leftmost first. -/
def searchMLAux (m : List Char → Option (List Char)) :
    Bool → List Char → Option (List Char)
  | atStart, [] => if atStart then m [] else none
  | atStart, c :: rest =>
    match (if atStart then m (c :: rest) else none) with
    | some g => some g
    | none => searchMLAux m (c == '\n') rest

/-- Result of `EVAL_SUCCESS_PATTERN.search`, as used at
moo_server.py line 237 / client.py line 196. -/
def searchSuccess (l : List Char) : Option (List Char) :=
  searchMLAux matchSuccessAt true l

/-- Result of `EVAL_ERROR_PATTERN.search`, as used at
moo_server.py line 242 / client.py line 201. -/
def searchError (l : List Char) : Option (List Char) :=
  searchMLAux matchErrorAt true l

/-- Wraps the traceback matcher as an option-valued matcher. -/
def matchTracebackOpt (l : List Char) : Option (List Char) :=
  if matchTracebackAt l then some [] else none

/-- Truth of `EVAL_TRACEBACK_PATTERN.search`, as used at
moo_server.py line 247 / client.py line 206. -/
def searchTraceback (l : List Char) : Bool :=
  (searchMLAux matchTracebackOpt true l).isSome

/-- Python `str.strip()` (ASCII whitespace). -/
def pyStripList (l : List Char) : List Char :=
  ((l.dropWhile isPySpace).reverse.dropWhile isPySpace).reverse

/-- Python `str.strip()` on a `String`. -/
def pyStrip (s : String) : String :=
  String.mk (pyStripList s.data)

/-- Python `str.rstrip()`. -/
def pyRstrip (s : String) : String :=
  String.mk ((s.data.reverse.dropWhile isPySpace).reverse)

/-- Python substring containment, `needle in hay`. -/
def listContainsSub (needle : List Char) : List Char → Bool
  | [] => needle.isEmpty
  | c :: rest => needle.isPrefixOf (c :: rest) || listContainsSub needle rest

/-- Python `needle in hay` on `String`s. -/
def pyContains (needle hay : String) : Bool :=
  listContainsSub needle.data hay.data

/-- Python `s.startswith(pre)`. -/
def pyStartsWith (pre s : String) : Bool :=
  pre.data.isPrefixOf s.data

/-- Python `s.lower()` (ASCII). -/
def pyLower (s : String) : String :=
  String.mk (s.data.map Char.toLower)

/-- Classification of an accumulated eval response,
moo_server.py lines 236-251 / client.py lines 195-210: success pattern
first, then explicit error pattern, then traceback pattern, then the
fallback on the stripped text. -/
def evalClassify (response : String) : Bool × String :=
  match searchSuccess response.data with
  | some g => (true, String.mk (pyStripList g))
  | none =>
    match searchError response.data with
    | some g => (false, String.mk (pyStripList g))
    | none =>
      if searchTraceback response.data then (false, pyStrip response)
      else if pyStrip response ≠ ("") then (false, pyStrip response)
      else (false, ("(no response)"))

/-- Termination test of the read loop in `eval`, moo_server.py
lines 228-232 / client.py lines 187-191: the just-appended line ends
the loop when it contains `=>`, contains the traceback closing phrase,
or starts with `**` and carries a complete brace-delimited detail
(`{` present and, after `rstrip`, a trailing `}`). -/
def stopLine (line : String) : Bool :=
  pyContains ("=>") line || pyContains ("(End of traceback)") line ||
    (pyStartsWith ("**") line && pyContains ("\x7b") line &&
      (pyRstrip line).data.getLast? = some '\x7d')

/-- Read loop of `eval`, moo_server.py lines 222-233 / client.py
lines 181-192.  The stream lists the successive results of
`_read_line`; an empty string is a quiet read (timeout) and an
exhausted stream reads as empty.  Each non-empty line is appended
before the termination test. -/
def readLoop : List String → List String
  | [] => []
  | line :: rest =>
    if line = ("") then []
    else if stopLine line then [line]
    else line :: readLoop rest

/-- Payload written by `_send`, moo_server.py lines 186-187 /
client.py lines 108-109: the command, with a newline appended when the
command does not already end with one. -/
def sendPayload (command : String) : String :=
  if command.data.getLast? = some '\n' then command else command ++ ("\n")

/-- Model of `MooClient.eval`, moo_server.py lines 212-251: prefix the
expression with `;` when missing, send it, run the read loop over the
response stream, and classify the accumulated text.  The second
component is the trace transcript of `(direction, timestamp, payload)`
entries appended by `_log_trace` (moo_server.py lines 84-85, appended
unconditionally; the `trace` flag only controls debug printing and is
never read by the classification), with timestamps drawn from the
clock. -/
def evalModel (trace : Bool) (clock : Nat → String) (expression : String)
    (stream : List String) :
    (Bool × String) × List (String × String × String) :=
  let expr := if pyStartsWith (";") expression then expression
    else (";") ++ expression
  let payload := sendPayload expr
  let lines := readLoop stream
  let response := String.join lines
  let transcript := (("SEND"), clock 0, payload) ::
    lines.enum.map (fun p => (("RECV"), clock (p.1 + 1), p.2))
  (evalClassify response, transcript)

/-- Return value of `MooClient.authenticate`, moo_server.py line 210
(and `login_wizard`, client.py line 246), applied to the immediate
response text: true when `***` is absent from the lowercased response
or `connected` is present in it. -/
def authenticateResult (response : String) : Bool :=
  !(pyContains ("***") (pyLower response)) ||
    pyContains ("connected") (pyLower response)

/-- Model of `MooClient.checkpoint`, moo_server.py lines 253-259:
evaluate `dump_database()`; when that succeeds, sleep the fixed grace
period.  First component: the returned success flag; second component:
whether the grace wait was performed; third: the eval transcript. -/
def checkpointModel (stream : List String) :
    (Bool × Bool) × List (String × String × String) :=
  let r := evalModel false (fun _ => ("")) ("dump_database()") stream
  let success := r.1.1
  ((success, if success then true else false), r.2)

/-- Following the claim's words for the read-loop termination
condition: the loop would end on a success-marker line, an explicit
error-marker line `** <message>`, or a traceback-closing line. -/
def claimedStopLine (line : String) : Bool :=
  (searchSuccess line.data).isSome || (searchError line.data).isSome ||
    pyContains ("(End of traceback)") line

/-- Following the claim's words: the read loop as the claim describes
it, ending at the first quiet read or claimed terminating line. -/
def readLoopClaimed : List String → List String
  | [] => []
  | line :: rest =>
    if line = ("") then []
    else if claimedStopLine line then [line]
    else line :: readLoopClaimed rest

/-- Python `list.remove` restricted to a present-or-absent element:
removes the first occurrence, leaves the list unchanged when the
element is absent (the callers below guard membership as the source
does). -/
def removeFirst {α : Type} [DecidableEq α] (a : α) : List α → List α
  | [] => []
  | b :: rest => if b = a then rest else b :: removeFirst a rest

/-- Running server instance as far as the lifecycle claims need it:
the process identity and the output database path
(`MooServerInstance`, moo_server.py lines 26-41). -/
structure Instance where
  id : Nat
  outputDb : String
deriving DecidableEq

/-- Observable state touched by `MooServer.start` and
`MooServer.stop`: the live-instance registry `_instances`, the set of
still-running spawned processes, `_instance_counter`, the created
working directories and the copied database files. -/
structure World where
  registry : List Instance
  running : List Nat
  counter : Nat
  dirs : List String
  files : List String
deriving DecidableEq

/-- Signals a `stop` call may deliver to the server process. -/
inductive Sig where
  | term
  | kill
deriving DecidableEq

/-- Outcome of a `start` call: a registered instance, the
`FileNotFoundError` of moo_server.py line 328, or the fatal
`RuntimeError` of lines 373-376 and 392-395 carrying the captured log
contents. -/
inductive StartOutcome where
  | ok (inst : Instance)
  | fileNotFound (path : String)
  | startupError (log : String)
deriving DecidableEq

/-- Model of `MooServer.stop`, moo_server.py lines 400-435: drop the
instance from the registry when present; when the process already
exited, return the output path at once with no signal; otherwise send
SIGTERM, escalating to SIGKILL when the graceful wait times out
(`killNeeded`), and return the output path.  Result: new world, the
returned path, the signals delivered. -/
def stop (w : World) (inst : Instance) (killNeeded : Bool) :
    World × String × List Sig :=
  let registry1 := if inst ∈ w.registry then removeFirst inst w.registry
    else w.registry
  if inst.id ∈ w.running then
    ({ w with
        registry := registry1
        running := removeFirst inst.id w.running },
      inst.outputDb,
      if killNeeded then [Sig.term, Sig.kill] else [Sig.term])
  else
    ({ w with registry := registry1 }, inst.outputDb, [])

/-- Model of `MooServer.start`, moo_server.py lines 318-398.
Environment facts are parameters: whether the database file exists,
the port discovered from the log (`none` covers both a missing
listening-port line and a bind failure), whether the readiness TCP
connect succeeded, and the captured log contents.  The missing-file
check precedes every side effect; on either failure path the spawned
process is terminated and the registry is left alone; only the success
path registers the instance. -/
def start (w : World) (dbPath : String) (dbExists : Bool)
    (portResult : Option Nat) (connectOk : Bool) (log : String) :
    World × StartOutcome :=
  if dbExists then
    let counter := w.counter + 1
    let instDir := ("instance_") ++ toString counter
    let w1 := { w with
      counter := counter
      dirs := instDir :: w.dirs
      files := (instDir ++ ("/input.db")) :: w.files }
    let pid := counter
    let w2 := { w1 with running := pid :: w1.running }
    match portResult with
    | none =>
      ({ w2 with running := removeFirst pid w2.running },
        StartOutcome.startupError log)
    | some _ =>
      let inst : Instance := { id := pid
                               outputDb := instDir ++ ("/output.db") }
      if connectOk then
        ({ w2 with registry := inst :: w2.registry }, StartOutcome.ok inst)
      else
        ({ w2 with
            registry := if inst ∈ w2.registry then
              removeFirst inst w2.registry else w2.registry
            running := removeFirst pid w2.running },
          StartOutcome.startupError log)
  else
    (w, StartOutcome.fileNotFound dbPath)

theorem removeFirst_of_not_mem {α : Type} [DecidableEq α] (a : α)
    (l : List α) (h : a ∉ l) : removeFirst a l = l := by
  induction l with
  | nil => rfl
  | cons b rest ih =>
    simp only [List.mem_cons, not_or] at h
    have hb : ¬ b = a := fun e => h.1 e.symm
    simp [removeFirst, hb, ih h.2]

theorem not_mem_removeFirst_self {α : Type} [DecidableEq α] (a : α)
    (l : List α) (h : l.Nodup) : a ∉ removeFirst a l := by
  induction l with
  | nil => simp [removeFirst]
  | cons b rest ih =>
    rw [List.nodup_cons] at h
    by_cases hb : b = a
    · subst hb
      simpa [removeFirst] using h.1
    · simp only [removeFirst, if_neg hb, List.mem_cons]
      push_neg
      exact ⟨fun e => hb e.symm, ih h.2⟩

theorem stop_of_not_mem (w : World) (inst : Instance) (k : Bool)
    (hr : inst ∉ w.registry) (hp : inst.id ∉ w.running) :
    stop w inst k = (w, inst.outputDb, []) := by
  cases w
  simp [stop, hr, hp]

theorem recvEntries_fst (clock : Nat → String) (lines : List String) :
    ∀ n : Nat, ((lines.enumFrom n).map
      (fun p => ((("RECV") : String), clock (p.1 + 1), p.2))).map
        (fun t => t.1) = lines.map (fun _ => ("RECV")) := by
  induction lines with
  | nil => intro n; rfl
  | cons a l ih => intro n; simp [List.enumFrom, ih]

theorem recvEntries_payload (clock : Nat → String) (lines : List String) :
    ∀ n : Nat, ((lines.enumFrom n).map
      (fun p => ((("RECV") : String), clock (p.1 + 1), p.2))).map
        (fun t => t.2.2) = lines := by
  induction lines with
  | nil => intro n; rfl
  | cons a l ih => intro n; simp [List.enumFrom, ih]

/-- Claim C1: the classifier applies the patterns in the fixed order
success, explicit error, traceback, then the fallback; a response
containing both a success line and an error line classifies as
success (last conjunct: a concrete such response, with the error line
arriving first). -/
theorem evalClassify_precedence (r : String) :
    (∀ g, searchSuccess r.data = some g →
      evalClassify r = (true, String.mk (pyStripList g))) ∧
    (searchSuccess r.data = none → ∀ g, searchError r.data = some g →
      evalClassify r = (false, String.mk (pyStripList g))) ∧
    (searchSuccess r.data = none → searchError r.data = none →
      searchTraceback r.data = true →
      evalClassify r = (false, pyStrip r)) ∧
    evalClassify ("** boom\n#-1: => 5\n") = (true, ("5")) := by
  refine ⟨?_, ?_, ?_, by decide⟩
  · intro g h
    simp [evalClassify, h]
  · intro hs g h
    simp [evalClassify, hs, h]
  · intro hs he ht
    simp [evalClassify, hs, he, ht]

/-- Witness for C1 at a concrete error-only response. -/
theorem evalClassify_precedence_witness :
    evalClassify ("** boom\n") = (false, ("boom")) := by
  have h := (evalClassify_precedence ("** boom\n")).2.1 (by decide)
    (("boom").data) (by decide)
  rw [h]
  decide

/-- Claim C2 counterexample: on the stream whose first line is a bare
`** <message>` line (no brace-delimited detail) the loop does not stop
there; it stops at the next line, which contains `=>` without being a
success-marker line.  The loop the claim describes stops at the first
line, so the two disagree on this input. -/
theorem readLoop_counterexample :
    readLoop [("** oops\n"), ("x => y\n")] =
      [("** oops\n"), ("x => y\n")] ∧
    readLoopClaimed [("** oops\n"), ("x => y\n")] = [("** oops\n")] ∧
    readLoop [("** oops\n"), ("x => y\n")] ≠
      readLoopClaimed [("** oops\n"), ("x => y\n")] := by
  decide

/-- Claim C2 (amended): each non-empty read line is appended, and the
loop terminates exactly on a quiet read (line not appended), a line
containing `=>`, a line containing the traceback closing phrase, or a
`**` line whose brace-delimited detail is completed on that same line
(that disjunction is `stopLine`). -/
theorem readLoop_termination (pre : List String) (l : String)
    (rest : List String)
    (h : ∀ p ∈ pre, p ≠ ("") ∧ stopLine p = false) :
    readLoop (pre ++ l :: rest) =
      if l = ("") then pre
      else if stopLine l then pre ++ [l]
      else pre ++ l :: readLoop rest := by
  induction pre with
  | nil => simp [readLoop]
  | cons p pre' ih =>
    have hp := h p (List.mem_cons_self p pre')
    have h' : ∀ q ∈ pre', q ≠ ("") ∧ stopLine q = false :=
      fun q hq => h q (List.mem_cons_of_mem p hq)
    have hcons : readLoop (p :: (pre' ++ l :: rest)) =
        p :: readLoop (pre' ++ l :: rest) := by
      simp [readLoop, hp.1, hp.2]
    rw [List.cons_append, hcons, ih h']
    by_cases hl : l = ("") <;> by_cases hs : stopLine l <;> simp [hl, hs]

/-- Witness for C2 at a concrete stream. -/
theorem readLoop_termination_witness :
    readLoop ([("a\n")] ++ ("#1: => 2\n") :: []) =
      [("a\n")] ++ [("#1: => 2\n")] := by
  have h := readLoop_termination [("a\n")] ("#1: => 2\n") [] (by decide)
  rw [h]
  decide

/-- Claim C3 counterexample: the whitespace-only response `"\n"` is
non-empty and matches no pattern, yet the classifier returns the
distinguished no-response marker instead of the leftover text. -/
theorem evalClassify_fallback_counterexample :
    ("\n" : String) ≠ ("") ∧
    searchSuccess ("\n" : String).data = none ∧
    searchError ("\n" : String).data = none ∧
    searchTraceback ("\n" : String).data = false ∧
    evalClassify ("\n") = (false, ("(no response)")) ∧
    evalClassify ("\n") ≠ (false, ("\n")) := by
  decide

/-- Claim C3 (amended): when no pattern matches, the fallback splits
on the whitespace-stripped text: non-empty stripped text is returned
as an unclassified failure, empty stripped text (including non-empty
all-whitespace responses) yields the no-response marker; either way
the message is non-empty. -/
theorem evalClassify_fallback (r : String)
    (hs : searchSuccess r.data = none) (he : searchError r.data = none)
    (ht : searchTraceback r.data = false) :
    evalClassify r =
      (false, if pyStrip r = ("") then ("(no response)") else pyStrip r) ∧
    (evalClassify r).2 ≠ ("") := by
  by_cases hz : pyStrip r = ("")
  · refine ⟨by simp [evalClassify, hs, he, ht, hz], ?_⟩
    simp [evalClassify, hs, he, ht, hz]
  · refine ⟨by simp [evalClassify, hs, he, ht, hz], ?_⟩
    simp [evalClassify, hs, he, ht, hz]

/-- Witness for C3 at a concrete unmatched response. -/
theorem evalClassify_fallback_witness :
    evalClassify ("abc") = (false, ("abc")) := by
  have h := (evalClassify_fallback ("abc") (by decide) (by decide)
    (by decide)).1
  rw [h]
  decide

/-- Claim C4: stop is idempotent; once a stop has completed, a second
stop returns the same output-database path, sends no signal, and
leaves the world (registry included) unchanged. -/
theorem stop_idempotent (w : World) (inst : Instance) (k k' : Bool)
    (hreg : w.registry.Nodup) (hrun : w.running.Nodup) :
    stop (stop w inst k).1 inst k' =
      ((stop w inst k).1, inst.outputDb, []) ∧
    (stop w inst k).2.1 = inst.outputDb := by
  have key : inst ∉ (stop w inst k).1.registry ∧
      inst.id ∉ (stop w inst k).1.running := by
    by_cases hm : inst ∈ w.registry <;> by_cases hr : inst.id ∈ w.running <;>
      simp [stop, hm, hr, not_mem_removeFirst_self _ _ hreg,
        not_mem_removeFirst_self _ _ hrun]
  refine ⟨stop_of_not_mem _ _ _ key.1 key.2, ?_⟩
  by_cases hr : inst.id ∈ w.running <;> simp [stop, hr]

/-- Instance used by the lifecycle witnesses. -/
def iExample : Instance where
  id := 1
  outputDb := ("instance_1/output.db")

/-- World used by the lifecycle witnesses. -/
def wExample : World where
  registry := [iExample]
  running := [1]
  counter := 1
  dirs := [("instance_1")]
  files := [("instance_1/input.db")]

/-- Witness for C4 at a concrete world. -/
theorem stop_idempotent_witness :
    stop (stop wExample iExample true).1 iExample false =
      ((stop wExample iExample true).1, ("instance_1/output.db"), []) := by
  exact (stop_idempotent wExample iExample true false (by decide)
    (by decide)).1

/-- Claim C5: when readiness is not observed (no listening-port line
or bind failure, i.e. no discovered port, or no successful TCP
connect), start fails with the fatal error carrying the log contents,
the spawned process (fresh pid `w.counter + 1`) is no longer running,
and the registry is unchanged. -/
theorem start_failure (w : World) (dbPath : String)
    (portResult : Option Nat) (connectOk : Bool) (log : String)
    (hfail : portResult = none ∨ connectOk = false)
    (hpid : w.counter + 1 ∉ w.running)
    (hids : ∀ i ∈ w.registry, i.id ≠ w.counter + 1) :
    (start w dbPath true portResult connectOk log).2 =
      StartOutcome.startupError log ∧
    (start w dbPath true portResult connectOk log).1.registry =
      w.registry ∧
    w.counter + 1 ∉ (start w dbPath true portResult connectOk log).1.running := by
  cases portResult with
  | none =>
    refine ⟨by simp [start], ?_, ?_⟩ <;> simp [start, removeFirst, hpid]
  | some p =>
    have hc : connectOk = false := by
      rcases hfail with h | h
      · exact absurd h (by simp)
      · exact h
    subst hc
    have hni : ∀ d : String,
        ({ id := w.counter + 1, outputDb := d } : Instance) ∉ w.registry :=
      fun d hm => hids _ hm rfl
    refine ⟨by simp [start], ?_, ?_⟩ <;>
      simp [start, removeFirst, hpid, removeFirst_of_not_mem _ _ (hni _)]

/-- Witness for C5 at a concrete world. -/
theorem start_failure_witness :
    (start wExample ("db") true none false ("logtext")).2 =
      StartOutcome.startupError ("logtext") := by
  exact (start_failure wExample ("db") none false ("logtext")
    (Or.inl rfl) (by decide) (by decide)).1

/-- Claim C10: with a database path naming no existing file, start
raises the file-not-found error before any side effect: the returned
world is exactly the input world (no directory created, no copy, no
process spawned, counter and registry untouched). -/
theorem start_missing_db (w : World) (dbPath : String)
    (portResult : Option Nat) (connectOk : Bool) (log : String) :
    start w dbPath false portResult connectOk log =
      (w, StartOutcome.fileNotFound dbPath) := by
  simp [start]

/-- Claim C6 counterexample: the response `*** Connected ***` contains
the failure marker yet authenticate returns true, because the response
also contains `connected`. -/
theorem authenticate_counterexample :
    pyContains ("***") (pyLower ("*** Connected ***")) = true ∧
    authenticateResult ("*** Connected ***") = true := by
  decide

/-- Claim C6 (amended): authenticate returns false exactly when the
failure marker occurs in the lowercased response and `connected` does
not; equivalently it returns true when the marker is absent or
`connected` is present. -/
theorem authenticate_failure_iff (response : String) :
    authenticateResult response = false ↔
      (pyContains ("***") (pyLower response) = true ∧
        pyContains ("connected") (pyLower response) = false) := by
  unfold authenticateResult
  cases h1 : pyContains ("***") (pyLower response) <;>
    cases h2 : pyContains ("connected") (pyLower response) <;>
      simp [h1, h2]

/-- Claim C7 counterexample: on a stream answering with a compile
error, checkpoint returns a failure and does not perform the grace
wait. -/
theorem checkpoint_counterexample :
    (checkpointModel [("** E \x7bx\x7d\n")]).1.1 = false ∧
    (checkpointModel [("** E \x7bx\x7d\n")]).1.2 = false := by
  decide

/-- Claim C7 (amended): checkpoint issues the persistence request
(first transcript entry: the sent `;dump_database()` line) and
performs the grace wait exactly when eval classified the response as
a success; on a failure it returns without waiting. -/
theorem checkpoint_wait_iff (stream : List String) :
    (checkpointModel stream).1.2 = (checkpointModel stream).1.1 ∧
    (checkpointModel stream).2.head? =
      some ((("SEND") : String), (("") : String),
        ((";dump_database()\n") : String)) := by
  constructor
  · unfold checkpointModel
    cases h : (evalModel false (fun _ => (""))
        ("dump_database()") stream).1.1 <;> simp [h]
  · rfl

/-- Claim C8: tracing is purely observational: the eval result and the
recorded transcript are identical with tracing enabled or disabled,
and the transcript lists the send event followed by the received lines
in arrival order. -/
theorem eval_trace_observational (clock : Nat → String) (e : String)
    (stream : List String) :
    evalModel true clock e stream = evalModel false clock e stream ∧
    (evalModel true clock e stream).2.map (fun t => t.1) =
      ("SEND") :: (readLoop stream).map (fun _ => ("RECV")) ∧
    (evalModel true clock e stream).2.map (fun t => t.2.2) =
      sendPayload (if pyStartsWith (";") e then e else (";") ++ e) ::
        readLoop stream := by
  have h2 : (evalModel true clock e stream).2 =
      (("SEND"), clock 0, sendPayload (if pyStartsWith (";") e then e
        else (";") ++ e)) ::
      ((readLoop stream).enumFrom 0).map
        (fun p => ((("RECV") : String), clock (p.1 + 1), p.2)) := rfl
  refine ⟨rfl, ?_, ?_⟩
  · rw [h2, List.map_cons, recvEntries_fst]
  · rw [h2, List.map_cons, recvEntries_payload]

/-- Claim C9: the transmitted command is left unchanged when it
already ends in a newline, gains exactly one appended newline
otherwise, and in both cases ends with a newline. -/
theorem send_terminator (command : String) :
    (command.data.getLast? = some '\n' → sendPayload command = command) ∧
    (command.data.getLast? ≠ some '\n' →
      sendPayload command = command ++ ("\n")) ∧
    (sendPayload command).data.getLast? = some '\n' := by
  refine ⟨fun h => by simp [sendPayload, h],
    fun h => by simp [sendPayload, h], ?_⟩
  by_cases h : command.data.getLast? = some '\n'
  · simp [sendPayload, h]
  · have hnl : ("\n" : String).data = ['\n'] := rfl
    simp [sendPayload, h, String.data_append, hnl, List.getLast?_concat]

/-- Witness for C9 at a concrete command without a newline. -/
theorem send_terminator_witness :
    sendPayload ("ls") = ("ls") ++ ("\n") := by
  exact (send_terminator ("ls")).2.1 (by decide)

end MooHarness
